import Mathlib

/-!
Verification of the history-fetch pagination layer of the pyrogram client
(`pyrogram/methods/messages/get_history.py`).

The source's single logic-carrying method `GetHistory.get_history`:

* substitutes the wire `offset_id` by Python truthiness
  (`offset_id = offset_id or (1 if reverse else 0)`),
* builds the wire parameters of `raw.functions.messages.GetHistory`
  (`offset_id`, `offset_date`, `add_offset`, `limit`, `max_id=0`, `min_id=0`,
  `hash=0`),
* sends them through `self.invoke(..., sleep_threshold=60)`,
* parses the reply with `utils.parse_messages`, and
* reverses the parsed list in place when `reverse` is true.

Python integers are unbounded, so integer parameters are embedded as `Int`.
A `datetime` value is embedded by the unix timestamp it was constructed from.
The invocation wrapper (`Client.invoke`) and the parsing utilities live
outside the file under verification, so they are modelled from the spec where
noted.
-/

namespace Pyrogram

/-- A `datetime` value, embedded as the unix timestamp (seconds) it denotes;
`datetime.fromtimestamp 0` is the epoch-zero sentinel default. -/
structure Datetime where
  seconds : Int
deriving DecidableEq

/-- `datetime.fromtimestamp(t)`: the datetime denoting unix time `t`. -/
def datetime_fromtimestamp (t : Int) : Datetime := ⟨t⟩

/-- Modelled from the spec: `utils.datetime_to_timestamp` is not under the
sources being verified; per the spec the caller's `offset_date` is "passed
through as a protocol timestamp (0 meaning unset/now)", so on our embedding
of datetimes it returns the denoted unix seconds, and the epoch-zero default
maps to the wire value 0. -/
def datetime_to_timestamp (d : Datetime) : Int := d.seconds

/-- The caller-facing arguments of `get_history`, with the source's default
values (`limit=100, offset=0, offset_id=0, offset_date=datetime.fromtimestamp(0),
reverse=False`). -/
structure HistoryRequest where
  limit : Int := 100
  offset : Int := 0
  offset_id : Int := 0
  offset_date : Datetime := datetime_fromtimestamp 0
  reverse : Bool := false
deriving DecidableEq

/-- The fields of the wire request `raw.functions.messages.GetHistory`,
parametrized by the type of resolved peer descriptors. -/
structure GetHistoryParams (Peer : Type) where
  peer : Peer
  offset_id : Int
  offset_date : Int
  add_offset : Int
  limit : Int
  max_id : Int
  min_id : Int
  hash : Int
deriving DecidableEq

/-- The wire parameters `get_history` constructs from the resolved peer and
its arguments (source lines 85 and 90-98):

* `offset_id = offset_id or (1 if reverse else 0)` — Python `or` keeps the
  left operand exactly when it is truthy, i.e. a nonzero integer;
* `offset_date = utils.datetime_to_timestamp(offset_date)`;
* `add_offset = offset * (-1 if reverse else 1) - (limit if reverse else 0)`;
* `limit` passed through; `max_id`, `min_id` and `hash` literally 0. -/
def historyWireParams {Peer : Type} (peer : Peer) (req : HistoryRequest) :
    GetHistoryParams Peer :=
  { peer := peer
    offset_id := if req.offset_id = 0 then (if req.reverse then 1 else 0)
                 else req.offset_id
    offset_date := datetime_to_timestamp req.offset_date
    add_offset := req.offset * (if req.reverse then -1 else 1) -
                  (if req.reverse then req.limit else 0)
    limit := req.limit
    max_id := 0
    min_id := 0
    hash := 0 }

/-- Errors a history fetch can surface, over a type `ε` of underlying causes:
`floodWait w` for a rate-limit wait above the absorbable threshold,
`remoteUnavailable` for an exhausted transient-retry budget, `rpc e` for a
fatal protocol error carrying its original cause, and `dep e` for a failure
of a dependency (peer resolution or message parsing) propagated unchanged. -/
inductive Err (ε : Type) where
  | floodWait (w : Nat)
  | remoteUnavailable
  | rpc (cause : ε)
  | dep (cause : ε)
deriving DecidableEq

/-- One transport response to a single send attempt: a successful raw reply,
a rate-limit signal carrying the required wait in seconds, a transient
network/server error, or a fatal protocol error with its cause. -/
inductive Outcome (Raw ε : Type) where
  | success (reply : Raw)
  | rateLimit (w : Nat)
  | transient
  | fatal (cause : ε)
deriving DecidableEq

/-- Modelled from the spec: the invocation wrapper (`Client.invoke`, not
under the sources being verified). Given the flood-wait threshold, the
transient-retry budget and the transport's scripted responses to successive
attempts, it returns the result together with the list of suspensions
(sleep durations) performed:

* on success, return the reply;
* on a rate-limit signal of `w` seconds: if `w ≤ threshold`, suspend for `w`
  and retry; otherwise fail with `FloodWait w` at once;
* on a transient error: retry while the budget lasts, else fail with
  `RemoteUnavailable` (also when the transport yields nothing);
* on a fatal error: fail immediately, the cause attached, never retried. -/
def invoke {Raw ε : Type} (threshold budget : Nat) :
    List (Outcome Raw ε) → Except (Err ε) Raw × List Nat
  | [] => (Except.error Err.remoteUnavailable, [])
  | Outcome.success r :: _ => (Except.ok r, [])
  | Outcome.rateLimit w :: rest =>
      if w ≤ threshold then
        ((invoke threshold budget rest).1, w :: (invoke threshold budget rest).2)
      else (Except.error (Err.floodWait w), [])
  | Outcome.transient :: rest =>
      match budget with
      | 0 => (Except.error Err.remoteUnavailable, [])
      | b + 1 => invoke threshold b rest
  | Outcome.fatal e :: _ => (Except.error (Err.rpc e), [])

/-- The flood-wait threshold every history fetch passes to the invocation
wrapper: the literal `sleep_threshold=60` of source line 100. -/
def sleep_threshold : Nat := 60

/-- Source lines 104-107: the in-memory post-processing of the parsed
messages — reverse the list exactly when `reverse` was requested. -/
def normalizeMessages {Msg : Type} (messages : List Msg) (reverse : Bool) :
    List Msg :=
  if reverse then messages.reverse else messages

/-- The normalization of a raw reply: parse it, then reverse the parsed list
when `reverse` was requested (the parsing function is abstract here;
`utils.parse_messages` is not under the sources being verified). -/
def normalizeReply {Raw Msg : Type} (parse : Raw → List Msg) (raw : Raw)
    (reverse : Bool) : List Msg :=
  normalizeMessages (parse raw) reverse

/-- The tail of `get_history` after the wire call: propagate an invocation
failure unchanged, otherwise parse the raw reply (propagating a parse
failure unchanged) and post-process the messages. -/
def historyFromReply {Raw Msg ε : Type}
    (parse_messages : Raw → Except (Err ε) (List Msg)) (reverse : Bool) :
    Except (Err ε) Raw → Except (Err ε) (List Msg)
  | Except.error e => Except.error e
  | Except.ok raw =>
      match parse_messages raw with
      | Except.error e => Except.error e
      | Except.ok messages => Except.ok (normalizeMessages messages reverse)

/-- The full `get_history` orchestration: resolve the peer (a failure
propagates unchanged), build the wire parameters, send them through the
invocation wrapper with `sleep_threshold`, parse the reply and post-process.
`transport` maps the wire parameters actually sent to the transport's
scripted responses; `budget` is the wrapper's transient-retry budget. -/
def get_history {Peer Raw Msg ε : Type}
    (resolve_peer : Except (Err ε) Peer)
    (transport : GetHistoryParams Peer → List (Outcome Raw ε))
    (parse_messages : Raw → Except (Err ε) (List Msg))
    (budget : Nat) (req : HistoryRequest) : Except (Err ε) (List Msg) :=
  match resolve_peer with
  | Except.error e => Except.error e
  | Except.ok peer =>
      historyFromReply parse_messages req.reverse
        (invoke sleep_threshold budget
          (transport (historyWireParams peer req))).1

end Pyrogram

namespace Pyrogram

/-- Claim C1: the wire `add_offset` equals
`offset * (-1 if reverse else 1) - (limit if reverse else 0)`; with
`reverse=false` it equals the caller's `offset` (in particular `offset=5,
limit=3` yields `add_offset=5`), and with `reverse=true` it equals
`-offset - limit`. -/
theorem c1_add_offset :
    (∀ (peer limit offset oid od : Int) (r : Bool),
      (historyWireParams peer ⟨limit, offset, oid, ⟨od⟩, r⟩).add_offset =
        offset * (if r then -1 else 1) - (if r then limit else 0)) ∧
    (∀ (peer limit offset oid od : Int),
      (historyWireParams peer ⟨limit, offset, oid, ⟨od⟩, false⟩).add_offset =
        offset) ∧
    (∀ (peer limit offset oid od : Int),
      (historyWireParams peer ⟨limit, offset, oid, ⟨od⟩, true⟩).add_offset =
        -offset - limit) ∧
    (historyWireParams (0 : Int) ⟨3, 5, 0, ⟨0⟩, false⟩).add_offset = 5 := by
  refine ⟨fun peer limit offset oid od r => rfl, fun peer limit offset oid od => by
    simp [historyWireParams], fun peer limit offset oid od => by
    simp [historyWireParams], by decide⟩

/-- Claim C2: the wire `offset_id` equals the caller's `offset_id` when nonzero;
a caller value of 0 becomes 1 when `reverse` is true and stays 0 when
`reverse` is false. -/
theorem c2_offset_id (peer limit offset oid od : Int) (r : Bool) :
    (oid ≠ 0 →
      (historyWireParams peer ⟨limit, offset, oid, ⟨od⟩, r⟩).offset_id = oid) ∧
    (historyWireParams peer ⟨limit, offset, 0, ⟨od⟩, true⟩).offset_id = 1 ∧
    (historyWireParams peer ⟨limit, offset, 0, ⟨od⟩, false⟩).offset_id = 0 := by
  refine ⟨fun h => by simp [historyWireParams, h], by simp [historyWireParams],
    by simp [historyWireParams]⟩

/-- Witness for C2 at concrete inputs: a nonzero `offset_id = 5` passes
through unchanged, and the two zero cases substitute 1 and 0. -/
theorem c2_offset_id_witness :
    (historyWireParams (7 : Int) ⟨100, 0, 5, ⟨0⟩, true⟩).offset_id = 5 ∧
    (historyWireParams (7 : Int) ⟨100, 0, 0, ⟨0⟩, true⟩).offset_id = 1 ∧
    (historyWireParams (7 : Int) ⟨100, 0, 0, ⟨0⟩, false⟩).offset_id = 0 :=
  ⟨(c2_offset_id 7 100 0 5 0 true).1 (by decide),
   (c2_offset_id 7 100 0 5 0 true).2.1,
   (c2_offset_id 7 100 0 5 0 false).2.2⟩

/-- Claim C3: for every raw reply, reversing the sequence returned by
normalization with `reverse=true` yields exactly the sequence returned by
normalization with `reverse=false`; concretely a server-order reply
`[A,B,C]` comes back as `[A,B,C]` when `reverse=false` and as `[C,B,A]`
when `reverse=true`. -/
theorem c3_normalize_reverse :
    (∀ (Raw Msg : Type) (parse : Raw → List Msg) (raw : Raw),
      (normalizeReply parse raw true).reverse = normalizeReply parse raw false) ∧
    normalizeReply (fun _ : Unit => ["A", "B", "C"]) () false = ["A", "B", "C"] ∧
    normalizeReply (fun _ : Unit => ["A", "B", "C"]) () true = ["C", "B", "A"] := by
  refine ⟨fun Raw Msg parse raw => ?_, rfl, rfl⟩
  simp [normalizeReply, normalizeMessages]

/-- Claim C4: the history fetch routes its wire call through the invocation
wrapper at the flood-wait threshold of 60 seconds; a rate-limit wait
`w ≤ 60` causes a suspension of `w` followed by a retry of the same call,
while `w > 60` fails immediately with `FloodWait w` and issues no retry
(its result ignores the remaining transport script and records no
suspension). -/
theorem c4_flood_wait (Raw ε : Type) (w budget : Nat)
    (rest : List (Outcome Raw ε)) :
    sleep_threshold = 60 ∧
    (∀ (Peer Msg : Type) (peer : Peer)
       (transport : GetHistoryParams Peer → List (Outcome Raw ε))
       (parse : Raw → Except (Err ε) (List Msg)) (req : HistoryRequest),
      get_history (Except.ok peer) transport parse budget req =
        historyFromReply parse req.reverse
          (invoke sleep_threshold budget
            (transport (historyWireParams peer req))).1) ∧
    (w ≤ 60 →
      invoke sleep_threshold budget (Outcome.rateLimit w :: rest) =
        ((invoke sleep_threshold budget rest).1,
          w :: (invoke sleep_threshold budget rest).2)) ∧
    (60 < w →
      invoke sleep_threshold budget (Outcome.rateLimit w :: rest) =
        (Except.error (Err.floodWait w), [])) := by
  refine ⟨rfl, fun Peer Msg peer transport parse req => rfl, fun h => ?_,
    fun h => ?_⟩
  · simp [invoke, sleep_threshold, h]
  · simp [invoke, sleep_threshold, Nat.not_le.mpr h]

/-- Witness for C4 at the spec's scenario: a rate-limit signal of 10 seconds
with threshold 60 yields one suspend-then-retry cycle ending in the reply,
while a signal of 120 seconds fails at once with `FloodWait 120` and no
suspension. -/
theorem c4_flood_wait_witness :
    invoke sleep_threshold 3
      ([Outcome.rateLimit 10, Outcome.success 0] : List (Outcome Nat Unit)) =
      (Except.ok 0, [10]) ∧
    invoke sleep_threshold 3
      ([Outcome.rateLimit 120, Outcome.success 0] : List (Outcome Nat Unit)) =
      (Except.error (Err.floodWait 120), []) := by
  constructor
  · exact ((c4_flood_wait Nat Unit 10 3 [Outcome.success 0]).2.2.1
      (by decide)).trans rfl
  · exact (c4_flood_wait Nat Unit 120 3 [Outcome.success 0]).2.2.2 (by decide)

/-- Claim C5: the wire `limit` is the caller's limit unmodified — no
100-item cap at this layer, e.g. 500 passes through — and `max_id`,
`min_id` and `hash` are always 0. -/
theorem c5_limit_unmodified :
    (∀ (Peer : Type) (peer : Peer) (req : HistoryRequest),
      (historyWireParams peer req).limit = req.limit ∧
      (historyWireParams peer req).max_id = 0 ∧
      (historyWireParams peer req).min_id = 0 ∧
      (historyWireParams peer req).hash = 0) ∧
    (historyWireParams (0 : Int) ⟨500, 0, 0, ⟨0⟩, false⟩).limit = 500 :=
  ⟨fun _ _ _ => ⟨rfl, rfl, rfl, rfl⟩, rfl⟩

/-- Claim C6: the defaults of `get_history` are exactly `limit=100,
offset=0, offset_id=0, offset_date=epoch-zero, reverse=false`, and the
caller's `offset_date` is passed to the wire as a protocol timestamp, the
epoch-zero default translating to wire value 0. -/
theorem c6_defaults :
    ({} : HistoryRequest) = ⟨100, 0, 0, datetime_fromtimestamp 0, false⟩ ∧
    (∀ (Peer : Type) (peer : Peer) (req : HistoryRequest),
      (historyWireParams peer req).offset_date =
        datetime_to_timestamp req.offset_date) ∧
    datetime_to_timestamp (datetime_fromtimestamp 0) = 0 :=
  ⟨rfl, fun _ _ _ => rfl, rfl⟩

/-- Claim C7: the fetch propagates every failure of peer resolution,
invocation or parsing to the caller unchanged, and returns no partial
result: it succeeds exactly when all stages succeed, with the messages
being the full normalization of the parsed reply. -/
theorem c7_error_propagation (Peer Raw Msg ε : Type)
    (transport : GetHistoryParams Peer → List (Outcome Raw ε))
    (parse : Raw → Except (Err ε) (List Msg))
    (budget : Nat) (req : HistoryRequest) :
    (∀ e, get_history (Except.error e) transport parse budget req =
      Except.error e) ∧
    (∀ (peer : Peer) e,
      (invoke sleep_threshold budget
        (transport (historyWireParams peer req))).1 = Except.error e →
      get_history (Except.ok peer) transport parse budget req =
        Except.error e) ∧
    (∀ (peer : Peer) (raw : Raw) e,
      (invoke sleep_threshold budget
        (transport (historyWireParams peer req))).1 = Except.ok raw →
      parse raw = Except.error e →
      get_history (Except.ok peer) transport parse budget req =
        Except.error e) ∧
    (∀ (peer : Peer) (msgs : List Msg),
      get_history (Except.ok peer) transport parse budget req =
        Except.ok msgs →
      ∃ raw l,
        (invoke sleep_threshold budget
          (transport (historyWireParams peer req))).1 = Except.ok raw ∧
        parse raw = Except.ok l ∧ msgs = normalizeMessages l req.reverse) := by
  refine ⟨fun e => rfl, fun peer e h => ?_, fun peer raw e h1 h2 => ?_,
    fun peer msgs h => ?_⟩
  · simp [get_history, h, historyFromReply]
  · simp [get_history, h1, historyFromReply, h2]
  · have h2 : historyFromReply parse req.reverse
        (invoke sleep_threshold budget
          (transport (historyWireParams peer req))).1 = Except.ok msgs := h
    cases hinv : (invoke sleep_threshold budget
        (transport (historyWireParams peer req))).1 with
    | error e => rw [hinv] at h2; simp [historyFromReply] at h2
    | ok raw =>
      rw [hinv] at h2
      cases hp : parse raw with
      | error e => simp [historyFromReply, hp] at h2
      | ok l =>
        simp [historyFromReply, hp] at h2
        exact ⟨raw, l, rfl, hp, h2.symm⟩

/-- Witness for C7 at concrete inputs: a peer-resolution failure and a
fatal invocation failure both surface unchanged. -/
theorem c7_error_propagation_witness :
    get_history (Except.error (Err.dep 3) : Except (Err Nat) Int)
      (fun _ => [Outcome.fatal 5]) (fun r : Nat => Except.ok [r]) 0
      ({} : HistoryRequest) = Except.error (Err.dep 3) ∧
    get_history (Except.ok (7 : Int)) (fun _ => [Outcome.fatal 5])
      (fun r : Nat => Except.ok [r]) 0 ({} : HistoryRequest) =
      Except.error (Err.rpc 5) := by
  constructor
  · exact (c7_error_propagation Int Nat Nat Nat (fun _ => [Outcome.fatal 5])
      (fun r => Except.ok [r]) 0 {}).1 (Err.dep 3)
  · exact (c7_error_propagation Int Nat Nat Nat (fun _ => [Outcome.fatal 5])
      (fun r => Except.ok [r]) 0 {}).2.1 7 (Err.rpc 5) rfl

/-- Claim C8: the wire parameters are a deterministic function of the
pagination fields and the resolved peer — equal `(limit, offset, offset_id,
offset_date, reverse)` and the same peer give identical wire parameters. -/
theorem c8_deterministic (Peer : Type) (peer : Peer) (r1 r2 : HistoryRequest)
    (hl : r1.limit = r2.limit) (ho : r1.offset = r2.offset)
    (hi : r1.offset_id = r2.offset_id) (hd : r1.offset_date = r2.offset_date)
    (hr : r1.reverse = r2.reverse) :
    historyWireParams peer r1 = historyWireParams peer r2 := by
  cases r1
  cases r2
  cases hl
  cases ho
  cases hi
  cases hd
  cases hr
  rfl

/-- Witness for C8 at concrete requests with equal fields. -/
theorem c8_deterministic_witness :
    historyWireParams (5 : Int) ⟨50, 2, 3, ⟨4⟩, true⟩ =
      historyWireParams (5 : Int) ⟨50, 2, 3, ⟨4⟩, true⟩ :=
  c8_deterministic Int 5 ⟨50, 2, 3, ⟨4⟩, true⟩ ⟨50, 2, 3, ⟨4⟩, true⟩
    rfl rfl rfl rfl rfl

/-- Claim C9: every nonzero caller `offset_id` — negative values included —
reaches the wire unchanged in both reverse modes; only the exact value 0
triggers the substitution, Python truthiness being nonzero-ness. -/
theorem c9_truthiness (peer limit offset oid od : Int) (r : Bool)
    (h : oid ≠ 0) :
    (historyWireParams peer ⟨limit, offset, oid, ⟨od⟩, r⟩).offset_id = oid := by
  simp [historyWireParams, h]

/-- Witness for C9 at the negative value -5 in both reverse modes. -/
theorem c9_truthiness_witness :
    (historyWireParams (1 : Int) ⟨100, 0, -5, ⟨0⟩, true⟩).offset_id = -5 ∧
    (historyWireParams (1 : Int) ⟨100, 0, -5, ⟨0⟩, false⟩).offset_id = -5 :=
  ⟨c9_truthiness 1 100 0 (-5) 0 true (by decide),
   c9_truthiness 1 100 0 (-5) 0 false (by decide)⟩

/-- Claim C10: the reverse flag leaves the wire fields `peer`,
`offset_date`, `limit`, `max_id`, `min_id` and `hash` untouched — for any
fixed remaining arguments they coincide between the two modes. -/
theorem c10_reverse_frame (Peer : Type) (peer : Peer)
    (limit offset oid od : Int) :
    (historyWireParams peer ⟨limit, offset, oid, ⟨od⟩, true⟩).peer =
      (historyWireParams peer ⟨limit, offset, oid, ⟨od⟩, false⟩).peer ∧
    (historyWireParams peer ⟨limit, offset, oid, ⟨od⟩, true⟩).offset_date =
      (historyWireParams peer ⟨limit, offset, oid, ⟨od⟩, false⟩).offset_date ∧
    (historyWireParams peer ⟨limit, offset, oid, ⟨od⟩, true⟩).limit =
      (historyWireParams peer ⟨limit, offset, oid, ⟨od⟩, false⟩).limit ∧
    (historyWireParams peer ⟨limit, offset, oid, ⟨od⟩, true⟩).max_id =
      (historyWireParams peer ⟨limit, offset, oid, ⟨od⟩, false⟩).max_id ∧
    (historyWireParams peer ⟨limit, offset, oid, ⟨od⟩, true⟩).min_id =
      (historyWireParams peer ⟨limit, offset, oid, ⟨od⟩, false⟩).min_id ∧
    (historyWireParams peer ⟨limit, offset, oid, ⟨od⟩, true⟩).hash =
      (historyWireParams peer ⟨limit, offset, oid, ⟨od⟩, false⟩).hash :=
  ⟨rfl, rfl, rfl, rfl, rfl, rfl⟩

end Pyrogram
